import Mathlib

/-!
# Verification of the trento-runner orchestration core

A shallow embedding of the `runner` package: the runner service
(`NewRunnerService`, `Start`, `IsCatalogReady`, `BuildCatalog`), the
workspace provisioner (`createAnsibleFiles`), the two ansible-runner
factories, and the periodic check-runner pipeline
(`startCheckRunnerTicker`).

External collaborators (the OS filesystem, the Trento API client, the
retry combinator, the interval scheduler, and the `AnsibleRunner`
playbook-execution handle) are modelled by explicit oracles recording
the outcome of each fallible external call, so theorems quantify over
all possible behaviours of the environment.
-/

namespace TrentoRunner

/-! ## Path constants (source: `part_000`, lines 23-29) -/

def AnsibleMain : String := "ansible/check.yml"

def AnsibleMeta : String := "ansible/meta.yml"

def AnsibleConfigFile : String := "ansible/ansible.cfg"

def AnsibleHostFile : String := "ansible/ansible_hosts"

def CatalogDestinationFile : String := "ansible/catalog.json"

/-- The `path.Join` of one folder and one relative path, as used by this
package (both arguments non-empty, already clean). -/
def pathJoin (a b : String) : String := a ++ "/" ++ b

/-- The runner configuration (API host/port, workspace folder, tick
interval), supplied once at construction and immutable afterwards. -/
structure Config where
  apiHost : String
  apiPort : Nat
  ansibleFolder : String
  interval : Nat
deriving DecidableEq

/-- The distinct error values the service can return, one per failing
call site, so that propagation of the underlying error is visible. -/
inductive Err where
  | provisionErr
  | missingArtifact
  | playbookRunErr
  | apiNotAvailable
deriving DecidableEq

/-- Observable events of one operation, in the order they were
attempted: the trace of a `BuildCatalog` call or of one tick. -/
inductive Ev where
  | createFiles
  | newMetaRunner
  | runMeta
  | fetchTopo
  | writeInv
  | bindInv
  | runCheck
deriving DecidableEq, BEq

/-! ## AnsibleRunner handle -/

/-- Modelled from the spec: the `AnsibleRunner` execution-engine handle
(its definition is not under `src/`; only the factories that configure
it are). It carries a playbook path, a config file path, an optional
catalog output destination, an optional inventory path, the check-mode
flag, and the API host/port bound for in-playbook callbacks. -/
structure AnsibleRunner where
  playbook : Option String := none
  configFile : Option String := none
  catalogDestination : Option String := none
  inventory : Option String := none
  checkMode : Bool := false
  trentoApiHost : Option String := none
  trentoApiPort : Option Nat := none
deriving DecidableEq

/-- Modelled from the spec: `DefaultAnsibleRunner` returns a handle
with nothing bound and check mode off. -/
def DefaultAnsibleRunner : AnsibleRunner := {}

/-- Modelled from the spec: `SetPlaybook` validates the playbook path
against the provisioned workspace (`wsHas` is the oracle answering
whether a path is present there); on failure it signals a
MissingArtifact error and leaves the handle unchanged. -/
def SetPlaybook (wsHas : String → Bool) (r : AnsibleRunner) (p : String) :
    Except Err AnsibleRunner :=
  if wsHas p then .ok { r with playbook := some p } else .error .missingArtifact

/-- Modelled from the spec: binds the engine config file. -/
def SetConfigFile (r : AnsibleRunner) (p : String) : AnsibleRunner :=
  { r with configFile := some p }

/-- Modelled from the spec: binds the catalog artifact destination. -/
def SetCatalogDestination (r : AnsibleRunner) (p : String) : AnsibleRunner :=
  { r with catalogDestination := some p }

/-- Modelled from the spec: binds the API host/port for in-playbook
callbacks. -/
def SetTrentoApiData (r : AnsibleRunner) (host : String) (port : Nat) :
    AnsibleRunner :=
  { r with trentoApiHost := some host, trentoApiPort := some port }

/-- Modelled from the spec: `SetInventory` binds the rendered inventory
path onto the handle; `bindOk` is the outcome of its validation, and on
failure the handle is unchanged. -/
def SetInventory (bindOk : Bool) (r : AnsibleRunner) (p : String) :
    Except Err AnsibleRunner :=
  if bindOk then .ok { r with inventory := some p } else .error .missingArtifact

/-- Factory `NewAnsibleMetaRunner` (source lines 171-185): binds the meta
playbook, the standard config file and the catalog destination; returns
the handle together with the error of the playbook validation, if any. -/
def NewAnsibleMetaRunner (wsHas : String → Bool) (config : Config) :
    AnsibleRunner × Option Err :=
  let playbookPath := pathJoin config.ansibleFolder AnsibleMeta
  let ansibleRunner := DefaultAnsibleRunner
  match SetPlaybook wsHas ansibleRunner playbookPath with
  | .error e => (ansibleRunner, some e)
  | .ok r1 =>
    let r2 := SetConfigFile r1 (pathJoin config.ansibleFolder AnsibleConfigFile)
    let r3 := SetCatalogDestination r2 (pathJoin config.ansibleFolder CatalogDestinationFile)
    (r3, none)

/-- Factory `NewAnsibleCheckRunner` (source lines 187-202): binds the main check
playbook, the check-mode flag, the standard config file and the API
host/port; no inventory at construction time. -/
def NewAnsibleCheckRunner (wsHas : String → Bool) (config : Config) :
    AnsibleRunner × Option Err :=
  let playbookPath := pathJoin config.ansibleFolder AnsibleMain
  let ansibleRunner := DefaultAnsibleRunner
  match SetPlaybook wsHas ansibleRunner playbookPath with
  | .error e => (ansibleRunner, some e)
  | .ok r1 =>
    let r2 := { r1 with checkMode := true }
    let r3 := SetConfigFile r2 (pathJoin config.ansibleFolder AnsibleConfigFile)
    let r4 := SetTrentoApiData r3 config.apiHost config.apiPort
    (r4, none)

/-! ## Runner service state -/

/-- The `runnerService` struct: its immutable configuration, the
readiness flag, and (as observable effects of the pipeline) the content
last written to the inventory file, if any. -/
structure RState where
  config : Config
  ready : Bool
  inventory : Option String
deriving DecidableEq

/-- Constructor `NewRunnerService` (source lines 45-52): stores the config, sets the
readiness flag to false, and always returns a nil error. -/
def NewRunnerService (config : Config) : RState × Option Err :=
  ({ config := config, ready := false, inventory := none }, none)

/-- Accessor `IsCatalogReady` (source lines 98-100). -/
def IsCatalogReady (s : RState) : Bool := s.ready

/-! ## BuildCatalog -/

/-- The environment of one `BuildCatalog` call: the outcome of the
workspace provisioning, the workspace-contents oracle consulted by the
meta-runner factory, and the outcome of the meta playbook run. -/
structure BuildEnv where
  createOk : Bool
  wsHas : String → Bool
  playbookOk : Bool

/-- Whether a `BuildCatalog` call with environment `env` succeeds. -/
def buildSucceeds (config : Config) (env : BuildEnv) : Bool :=
  env.createOk && (NewAnsibleMetaRunner env.wsHas config).2.isNone && env.playbookOk

/-- Operation `BuildCatalog` (source lines 102-120): re-provision the workspace,
construct the meta runner, run its playbook once; on success set the
readiness flag; on any failure return the underlying error. Returns
the new state, the returned error, and the trace of attempted steps. -/
def BuildCatalog (env : BuildEnv) (s : RState) : RState × Option Err × List Ev :=
  if !env.createOk then (s, some .provisionErr, [.createFiles])
  else
    let s1 := { s with inventory := none }
    match (NewAnsibleMetaRunner env.wsHas s.config).2 with
    | some e => (s1, some e, [.createFiles, .newMetaRunner])
    | none =>
      if !env.playbookOk then (s1, some .playbookRunErr, [.createFiles, .newMetaRunner, .runMeta])
      else ({ s1 with ready := true }, none, [.createFiles, .newMetaRunner, .runMeta])

/-! ## The execution pipeline ("tick") -/

/-- The environment of one tick: the outcome of the meta playbook run,
the topology fetch (`none` models a failed `NewClusterInventoryContent`,
`some content` the rendered inventory content), the inventory-file
write, the inventory binding, and the check playbook run. -/
structure TickEnv where
  metaOk : Bool
  fetched : Option String
  invWriteOk : Bool
  bindOk : Bool
  checkOk : Bool

/-- The canonical order of the five pipeline stages. -/
def stageOrder : List Ev := [.runMeta, .fetchTopo, .writeInv, .bindInv, .runCheck]

/-- Whether the first four stages of a tick (the preconditions of the
check run) all succeed in environment `env`. -/
def tickReachesCheck (env : TickEnv) : Bool :=
  env.metaOk && env.fetched.isSome && env.invWriteOk && env.bindOk

/-- One tick of the pipeline (source lines 215-240): run the meta
playbook, fetch the topology, write the inventory file, bind it on the
check runner, run the check playbook; the first failure ends the tick
early, and the outcome of the check run itself is discarded. Returns
the new service state, the updated check-runner handle, and the trace
of attempted stages. -/
def tick (env : TickEnv) (s : RState) (checkRunner : AnsibleRunner) :
    RState × AnsibleRunner × List Ev :=
  if !env.metaOk then (s, checkRunner, [.runMeta])
  else
    match env.fetched with
    | none => (s, checkRunner, [.runMeta, .fetchTopo])
    | some content =>
      if !env.invWriteOk then (s, checkRunner, [.runMeta, .fetchTopo, .writeInv])
      else
        let s1 := { s with inventory := some content }
        let inventoryFile := pathJoin s.config.ansibleFolder AnsibleHostFile
        match SetInventory env.bindOk checkRunner inventoryFile with
        | .error _ => (s1, checkRunner, [.runMeta, .fetchTopo, .writeInv, .bindInv])
        | .ok cr1 => (s1, cr1, [.runMeta, .fetchTopo, .writeInv, .bindInv, .runCheck])

/-- Modelled from the spec: `internal.Repeat` (not under `src/`) invokes
the tick callback once per interval until cancelled; `envs` lists the
environments of the ticks that run before cancellation. Returns the
final state, the final check-runner handle and one trace per tick. -/
def RepeatTicks : List TickEnv → RState → AnsibleRunner →
    RState × AnsibleRunner × List (List Ev)
  | [], s, cr => (s, cr, [])
  | e :: rest, s, cr =>
    let r1 := tick e s cr
    let r2 := RepeatTicks rest r1.1 r1.2.1
    (r2.1, r2.2.1, r1.2.2 :: r2.2.2)

/-- The environment of the pipeline loop: the workspace oracle consulted
by the two runner factories, and the tick environments until
cancellation. -/
structure LoopEnv where
  wsHas : String → Bool
  ticks : List TickEnv

/-- Loop `startCheckRunnerTicker` (source lines 204-244): construct the check
runner and the meta runner (returning silently, with no ticks, if either
construction fails), then run the tick on every interval until
cancelled. -/
def startCheckRunnerTicker (env : LoopEnv) (s : RState) :
    RState × List (List Ev) :=
  match (NewAnsibleCheckRunner env.wsHas s.config).2 with
  | some _ => (s, [])
  | none =>
    match (NewAnsibleMetaRunner env.wsHas s.config).2 with
    | some _ => (s, [])
    | none =>
      let checkRunner := (NewAnsibleCheckRunner env.wsHas s.config).1
      let r := RepeatTicks env.ticks s checkRunner
      (r.1, r.2.2)

/-! ## Startup: liveness-probe retry and Start -/

/-- The configured retry options (source lines 73-75):
`retryGo.Delay(2*time.Second)`, `retryGo.MaxJitter(3*time.Second)`,
`retryGo.Attempts(8)`, in milliseconds. -/
def retryDelayMs : Nat := 2000

def retryMaxJitterMs : Nat := 3000

def retryAttempts : Nat := 8

/-- Modelled from the spec: the retry combinator performs up to
`remaining` attempts of the liveness probe (`probe n` is the outcome of
attempt `n`), waiting a fixed base delay plus bounded random jitter
(`jitter n` seeds the jitter of the wait after attempt `n`) between
attempts, and on final failure surfaces only the most recent error.
Returns the surfaced error, if any, and the list of waits (ms). -/
def retryProbe (probe : Nat → Bool) (jitter : Nat → Nat) :
    Nat → Nat → Option Err × List Nat
  | _, 0 => (some .apiNotAvailable, [])
  | n, remaining + 1 =>
    if probe n then (none, [])
    else if remaining == 0 then (some .apiNotAvailable, [])
    else
      let d := retryDelayMs + jitter n % retryMaxJitterMs
      let r := retryProbe probe jitter (n + 1) remaining
      (r.1, d :: r.2)

/-- The environment of one `Start` call: the outcome of the initial
workspace provisioning, the per-attempt liveness-probe outcomes, the
jitter seeds, and the pipeline-loop environment. -/
structure StartEnv where
  createOk : Bool
  probe : Nat → Bool
  jitter : Nat → Nat
  loopEnv : LoopEnv

/-- The result of a `Start` call: the final state, the returned error,
the per-tick traces of the spawned pipeline loop (empty if the loop was
never spawned), and the waits of the retry loop. -/
structure StartResult where
  state : RState
  err : Option Err
  tickTraces : List (List Ev)
  waits : List Nat
deriving DecidableEq

/-- Operation `Start` (source lines 54-96): provision the workspace (any failure
is returned at once), retry the API liveness probe, and on success run
the pipeline loop until cancellation, after which `Start` returns nil. -/
def Start (env : StartEnv) (s : RState) : StartResult :=
  if !env.createOk then
    { state := s, err := some .provisionErr, tickTraces := [], waits := [] }
  else
    let s0 := { s with inventory := none }
    let r := retryProbe env.probe env.jitter 0 retryAttempts
    match r.1 with
    | some e => { state := s0, err := some e, tickTraces := [], waits := r.2 }
    | none =>
      let l := startCheckRunnerTicker env.loopEnv s0
      { state := l.1, err := none, tickTraces := l.2, waits := r.2 }

/-! ## Operation sequences on the service -/

/-- One externally invocable operation on a running service: an
on-demand `BuildCatalog` (with its environment), one scheduled tick of
the pipeline (with its environment and, implicitly, the loop's check
runner), or a readiness query. -/
inductive Op where
  | build (env : BuildEnv)
  | tickOp (env : TickEnv)
  | queryReady

/-- Apply one operation to the service state (the check-runner handle of
the pipeline loop is threaded alongside). -/
def applyOp (op : Op) (s : RState × AnsibleRunner) : RState × AnsibleRunner :=
  match op with
  | .build env => ((BuildCatalog env s.1).1, s.2)
  | .tickOp env =>
    let r := tick env s.1 s.2
    (r.1, r.2.1)
  | .queryReady => s

/-- Run a sequence of operations in order. -/
def runOps : List Op → RState × AnsibleRunner → RState × AnsibleRunner
  | [], s => s
  | op :: rest, s => runOps rest (applyOp op s)

/-- Whether a sequence of operations contains no successful
`BuildCatalog` call (relative to the fixed configuration `config`). -/
def noSuccessfulBuild (config : Config) : List Op → Bool
  | [] => true
  | .build env :: rest => !buildSucceeds config env && noSuccessfulBuild config rest
  | _ :: rest => noSuccessfulBuild config rest

/-! ## Filesystem model for the workspace provisioner

Paths are lists of components. The filesystem is an association list
mapping paths to nodes; lookups take the first (most recent) binding,
and creating a file or directory conses a new binding, modelling
last-write-wins overwriting. -/

/-- A filesystem node: a directory, or a file with its byte content. -/
inductive Node where
  | dir
  | file (content : String)
deriving DecidableEq

/-- A filesystem: bindings from paths to nodes, most recent first. -/
abbrev FSys := List (List String × Node)

/-- Look up a path, first binding wins. -/
def lookupFS : FSys → List String → Option Node
  | [], _ => none
  | (k, v) :: rest, p => if p = k then some v else lookupFS rest p

/-- Predicate `isUnder root p` holds when `p` is `root` or lies below it. -/
def isUnder : List String → List String → Bool
  | [], _ => true
  | _, [] => false
  | a :: as, b :: bs => a = b && isUnder as bs

/-- Models `os.RemoveAll`: delete every binding at or below `root`. -/
def removeAllFS (root : List String) (fs : FSys) : FSys :=
  fs.filter (fun e => !isUnder root e.1)

/-- Models `os.Mkdir`: create a directory; if the path already exists the call
fails (the caller ignores the error), so the filesystem is unchanged. -/
def mkdirFS (mkdirOk : Bool) (p : List String) (fs : FSys) : FSys :=
  if (lookupFS fs p).isSome then fs
  else if mkdirOk then (p, Node.dir) :: fs else fs

/-- The outcome oracle of one `createAnsibleFiles` call: the results of
the `os.RemoveAll` and `os.MkdirAll` calls, and, per path, of the
embedded-FS read, the `os.Create`, the `fmt.Fprintf` data write (whose
error the source discards), and the `os.Mkdir` (whose error the source
discards). -/
structure FsOracle where
  removeAllOk : Bool
  mkdirAllOk : Bool
  readOk : List String → Bool
  createOk : List String → Bool
  writeOk : List String → Bool
  mkdirOk : List String → Bool

/-- One step of the `fs.WalkDir` callback (source lines 139-159) on the
template entry `e`: directories are created with `os.Mkdir` and its
error ignored; files are read from the embedded FS, created with
`os.Create` (both errors propagate), then written with `fmt.Fprintf`
whose result is discarded — a failed write leaves the created file
empty. -/
def copyEntry (o : FsOracle) (folder : List String) (e : List String × Node)
    (fs : FSys) : Except Err FSys :=
  match e with
  | (p, .dir) => .ok (mkdirFS (o.mkdirOk (folder ++ p)) (folder ++ p) fs)
  | (p, .file content) =>
    if !o.readOk p then .error .provisionErr
    else if !o.createOk (folder ++ p) then .error .provisionErr
    else .ok ((folder ++ p,
      Node.file (if o.writeOk (folder ++ p) then content else "")) :: fs)

/-- The walk over the template entries, stopping at the first
propagated error. -/
def walkCopy (o : FsOracle) (folder : List String) :
    List (List String × Node) → FSys → Except Err FSys
  | [], fs => .ok fs
  | e :: rest, fs =>
    match copyEntry o folder e fs with
    | .error er => .error er
    | .ok fs1 => walkCopy o folder rest fs1

/-- Provisioner `createAnsibleFiles` (source lines 122-169): remove the `ansible`
subtree of `folder` (failure propagates), recreate the directory
(failure propagates), then walk the embedded template `tmpl` copying
every entry under `folder`. -/
def createAnsibleFiles (o : FsOracle) (tmpl : List (List String × Node))
    (folder : List String) (fs : FSys) : Except Err FSys :=
  if !o.removeAllOk then .error .provisionErr
  else
    let fs1 := removeAllFS (folder ++ ["ansible"]) fs
    if !o.mkdirAllOk then .error .provisionErr
    else
      let fs2 :=
        if (lookupFS fs1 (folder ++ ["ansible"])).isSome then fs1
        else (folder ++ ["ansible"], Node.dir) :: fs1
      walkCopy o folder tmpl fs2

/-- The destination subtree mirrors the template: every path under the
`ansible` root resolves, below `folder`, to exactly the template's
binding (so in particular no leftover entries from a previous run). -/
def mirrorsTemplate (fs : FSys) (folder : List String)
    (tmpl : List (List String × Node)) : Prop :=
  ∀ p : List String, isUnder ["ansible"] p = true →
    lookupFS fs (folder ++ p) = lookupFS tmpl p

/-- Well-formedness of the embedded template, as `fs.WalkDir` presents
it: the root directory `ansible` first, every path under that root, and
no duplicate paths. -/
def templateWF (tmpl : List (List String × Node)) : Bool :=
  (match tmpl with
   | (p, Node.dir) :: _ => p = ["ansible"]
   | _ => false) &&
  tmpl.all (fun e => isUnder ["ansible"] e.1) &&
  decide (tmpl.map (fun e => e.1)).Nodup

/-- An oracle under which every individual filesystem operation
succeeds. -/
def allOk : FsOracle :=
  { removeAllOk := true, mkdirAllOk := true,
    readOk := fun _ => true, createOk := fun _ => true,
    writeOk := fun _ => true, mkdirOk := fun _ => true }

/-! ## Sample values used by the witnesses -/

def sampleConfig : Config :=
  { apiHost := "trento.example", apiPort := 8080,
    ansibleFolder := "/usr/etc/trento", interval := 5 }

def sampleState : RState := (NewRunnerService sampleConfig).1

def sampleBuildOk : BuildEnv :=
  { createOk := true, wsHas := fun _ => true, playbookOk := true }

def sampleBuildFail : BuildEnv :=
  { createOk := true, wsHas := fun _ => true, playbookOk := false }

def sampleTickOk : TickEnv :=
  { metaOk := true, fetched := some "[all]\nhost1\n", invWriteOk := true,
    bindOk := true, checkOk := true }

def sampleTickCheckFail : TickEnv :=
  { metaOk := true, fetched := some "[all]\nhost1\n", invWriteOk := true,
    bindOk := true, checkOk := false }

def sampleTickMetaFail : TickEnv :=
  { metaOk := false, fetched := none, invWriteOk := true,
    bindOk := true, checkOk := true }

def sampleLoopEnv : LoopEnv :=
  { wsHas := fun _ => true, ticks := [] }

def sampleLoopEnvTicks : LoopEnv :=
  { wsHas := fun _ => true, ticks := [sampleTickCheckFail, sampleTickOk] }

def sampleStartFail : StartEnv :=
  { createOk := true, probe := fun _ => false, jitter := fun _ => 0,
    loopEnv := sampleLoopEnv }

def sampleStartOk : StartEnv :=
  { createOk := true, probe := fun n => decide (2 ≤ n), jitter := fun _ => 4321,
    loopEnv := sampleLoopEnvTicks }

def sampleStartCreateFail : StartEnv :=
  { createOk := false, probe := fun _ => true, jitter := fun _ => 0,
    loopEnv := sampleLoopEnv }

/-- A small concrete template tree, shaped like the embedded `ansible`
bundle. -/
def sampleTemplate : List (List String × Node) :=
  [(["ansible"], Node.dir),
   (["ansible", "check.yml"], Node.file "- hosts: all\n"),
   (["ansible", "meta.yml"], Node.file "- meta\n")]

/-- An oracle under which every operation succeeds except the data
write of `check.yml`, whose error the source discards. -/
def writeFailOracle : FsOracle :=
  { removeAllOk := true, mkdirAllOk := true,
    readOk := fun _ => true, createOk := fun _ => true,
    writeOk := fun p => if p = ["srv", "ansible", "check.yml"] then false else true,
    mkdirOk := fun _ => true }

/-- The tree left behind by `createAnsibleFiles` under
`writeFailOracle`, starting from an empty filesystem. -/
def writeFailResult : FSys :=
  [(["srv", "ansible", "meta.yml"], Node.file "- meta\n"),
   (["srv", "ansible", "check.yml"], Node.file ""),
   (["srv", "ansible"], Node.dir)]

/-! ## Basic lemmas about the service operations -/

theorem BuildCatalog_ready_eq (env : BuildEnv) (s : RState) :
    (BuildCatalog env s).1.ready = (s.ready || buildSucceeds s.config env) := by
  unfold BuildCatalog buildSucceeds
  cases hc : env.createOk <;> simp only [hc, Bool.not_false, Bool.not_true, if_true, if_false,
    Bool.false_and, Bool.true_and, Bool.or_false]
  cases hm : (NewAnsibleMetaRunner env.wsHas s.config).2 with
  | some e => simp
  | none =>
    cases hp : env.playbookOk <;> simp

theorem BuildCatalog_config_eq (env : BuildEnv) (s : RState) :
    (BuildCatalog env s).1.config = s.config := by
  unfold BuildCatalog
  cases hc : env.createOk <;> simp only [Bool.not_false, Bool.not_true, if_true, if_false]
  cases hm : (NewAnsibleMetaRunner env.wsHas s.config).2 with
  | some e => rfl
  | none =>
    cases hp : env.playbookOk <;> simp

theorem tick_state_eq (env : TickEnv) (s : RState) (cr : AnsibleRunner) :
    (tick env s cr).1 = s ∨
    ∃ c, env.fetched = some c ∧ (tick env s cr).1 = { s with inventory := some c } := by
  unfold tick SetInventory
  cases hm : env.metaOk
  · simp
  · cases hf : env.fetched with
    | none => simp
    | some c =>
      cases hw : env.invWriteOk
      · simp
      · cases hb : env.bindOk <;> simp

theorem tick_ready_eq (env : TickEnv) (s : RState) (cr : AnsibleRunner) :
    (tick env s cr).1.ready = s.ready := by
  rcases tick_state_eq env s cr with h | ⟨c, _, h⟩ <;> rw [h]

theorem tick_config_eq (env : TickEnv) (s : RState) (cr : AnsibleRunner) :
    (tick env s cr).1.config = s.config := by
  rcases tick_state_eq env s cr with h | ⟨c, _, h⟩ <;> rw [h]

theorem applyOp_config_eq (op : Op) (t : RState × AnsibleRunner) :
    (applyOp op t).1.config = t.1.config := by
  cases op with
  | build env => exact BuildCatalog_config_eq env t.1
  | tickOp env => exact tick_config_eq env t.1 t.2
  | queryReady => rfl

theorem applyOp_ready_mono (op : Op) (t : RState × AnsibleRunner)
    (h : t.1.ready = true) : (applyOp op t).1.ready = true := by
  cases op with
  | build env => simp [applyOp, BuildCatalog_ready_eq, h]
  | tickOp env => simp [applyOp, tick_ready_eq, h]
  | queryReady => exact h

theorem runOps_config_eq (ops : List Op) (t : RState × AnsibleRunner) :
    (runOps ops t).1.config = t.1.config := by
  induction ops generalizing t with
  | nil => rfl
  | cons op rest ih => rw [runOps, ih, applyOp_config_eq]

theorem runOps_ready_mono (ops : List Op) (t : RState × AnsibleRunner)
    (h : t.1.ready = true) : (runOps ops t).1.ready = true := by
  induction ops generalizing t with
  | nil => exact h
  | cons op rest ih => exact ih _ (applyOp_ready_mono op t h)

theorem runOps_ready_false (config : Config) (ops : List Op)
    (t : RState × AnsibleRunner) (hcfg : t.1.config = config)
    (hr : t.1.ready = false) (h : noSuccessfulBuild config ops = true) :
    (runOps ops t).1.ready = false := by
  induction ops generalizing t with
  | nil => exact hr
  | cons op rest ih =>
    rw [runOps]
    have hcfg1 : (applyOp op t).1.config = config := by
      rw [applyOp_config_eq, hcfg]
    cases op with
    | build env =>
      rw [noSuccessfulBuild, Bool.and_eq_true] at h
      refine ih _ hcfg1 ?_ h.2
      have : buildSucceeds config env = false := by
        rcases h.1 with h1
        cases hb : buildSucceeds config env
        · rfl
        · rw [hb] at h1; simp at h1
      simp [applyOp, BuildCatalog_ready_eq, hr, hcfg, this]
    | tickOp env =>
      refine ih _ hcfg1 ?_ h
      simp [applyOp, tick_ready_eq, hr]
    | queryReady =>
      exact ih _ hcfg1 hr h

theorem BuildCatalog_createFail {env : BuildEnv} (s : RState)
    (hc : env.createOk = false) :
    BuildCatalog env s = (s, some Err.provisionErr, [Ev.createFiles]) := by
  simp [BuildCatalog, hc]

theorem BuildCatalog_metaFail {env : BuildEnv} (s : RState) {e : Err}
    (hc : env.createOk = true)
    (hm : (NewAnsibleMetaRunner env.wsHas s.config).2 = some e) :
    BuildCatalog env s =
      ({ s with inventory := none }, some e, [Ev.createFiles, Ev.newMetaRunner]) := by
  simp [BuildCatalog, hc, hm]

theorem BuildCatalog_runFail {env : BuildEnv} (s : RState)
    (hc : env.createOk = true)
    (hm : (NewAnsibleMetaRunner env.wsHas s.config).2 = none)
    (hp : env.playbookOk = false) :
    BuildCatalog env s =
      ({ s with inventory := none }, some Err.playbookRunErr,
        [Ev.createFiles, Ev.newMetaRunner, Ev.runMeta]) := by
  simp [BuildCatalog, hc, hm, hp]

theorem BuildCatalog_success {env : BuildEnv} (s : RState)
    (hc : env.createOk = true)
    (hm : (NewAnsibleMetaRunner env.wsHas s.config).2 = none)
    (hp : env.playbookOk = true) :
    BuildCatalog env s =
      ({ s with inventory := none, ready := true }, none,
        [Ev.createFiles, Ev.newMetaRunner, Ev.runMeta]) := by
  simp [BuildCatalog, hc, hm, hp]

theorem buildSucceeds_iff {config : Config} {env : BuildEnv} :
    buildSucceeds config env = true ↔
      env.createOk = true ∧ (NewAnsibleMetaRunner env.wsHas config).2 = none ∧
      env.playbookOk = true := by
  simp [buildSucceeds, Option.isNone_iff_eq_none, Bool.and_eq_true, and_assoc]

theorem tick_metaFail {env : TickEnv} (s : RState) (cr : AnsibleRunner)
    (hm : env.metaOk = false) : tick env s cr = (s, cr, [Ev.runMeta]) := by
  simp [tick, hm]

theorem tick_full {env : TickEnv} (s : RState) (cr : AnsibleRunner) {c : String}
    (hm : env.metaOk = true) (hf : env.fetched = some c)
    (hw : env.invWriteOk = true) (hb : env.bindOk = true) :
    tick env s cr =
      ({ s with inventory := some c },
       { cr with inventory := some (pathJoin s.config.ansibleFolder AnsibleHostFile) },
       stageOrder) := by
  simp [tick, hm, hf, hw, hb, SetInventory, stageOrder]

theorem tick_fetchFail {env : TickEnv} (s : RState) (cr : AnsibleRunner)
    (hm : env.metaOk = true) (hf : env.fetched = none) :
    tick env s cr = (s, cr, [Ev.runMeta, Ev.fetchTopo]) := by
  simp [tick, hm, hf]

theorem tick_writeFail {env : TickEnv} (s : RState) (cr : AnsibleRunner) {c : String}
    (hm : env.metaOk = true) (hf : env.fetched = some c)
    (hw : env.invWriteOk = false) :
    tick env s cr = (s, cr, [Ev.runMeta, Ev.fetchTopo, Ev.writeInv]) := by
  simp [tick, hm, hf, hw]

theorem tick_bindFail {env : TickEnv} (s : RState) (cr : AnsibleRunner) {c : String}
    (hm : env.metaOk = true) (hf : env.fetched = some c)
    (hw : env.invWriteOk = true) (hb : env.bindOk = false) :
    tick env s cr =
      ({ s with inventory := some c }, cr,
        [Ev.runMeta, Ev.fetchTopo, Ev.writeInv, Ev.bindInv]) := by
  simp [tick, hm, hf, hw, SetInventory, hb]

theorem tick_trace_ordered (env : TickEnv) (s : RState) (cr : AnsibleRunner) :
    ((tick env s cr).2.2).isPrefixOf stageOrder = true := by
  cases hm : env.metaOk
  · rw [tick_metaFail s cr hm]
    show ([Ev.runMeta] : List Ev).isPrefixOf stageOrder = true
    decide
  · cases hf : env.fetched with
    | none =>
      rw [tick_fetchFail s cr hm hf]
      show ([Ev.runMeta, Ev.fetchTopo] : List Ev).isPrefixOf stageOrder = true
      decide
    | some c =>
      cases hw : env.invWriteOk
      · rw [tick_writeFail s cr hm hf hw]
        show ([Ev.runMeta, Ev.fetchTopo, Ev.writeInv] : List Ev).isPrefixOf stageOrder = true
        decide
      · cases hb : env.bindOk
        · rw [tick_bindFail s cr hm hf hw hb]
          show ([Ev.runMeta, Ev.fetchTopo, Ev.writeInv, Ev.bindInv] : List Ev).isPrefixOf
            stageOrder = true
          decide
        · rw [tick_full s cr hm hf hw hb]
          show (stageOrder).isPrefixOf stageOrder = true
          decide

theorem RepeatTicks_length (envs : List TickEnv) (s : RState) (cr : AnsibleRunner) :
    (RepeatTicks envs s cr).2.2.length = envs.length := by
  induction envs generalizing s cr with
  | nil => rfl
  | cons e rest ih => simp [RepeatTicks, ih]

theorem RepeatTicks_ready (envs : List TickEnv) (s : RState) (cr : AnsibleRunner) :
    (RepeatTicks envs s cr).1.ready = s.ready := by
  induction envs generalizing s cr with
  | nil => rfl
  | cons e rest ih => simp [RepeatTicks, ih, tick_ready_eq]

/-! ## Claim theorems -/

/-- C1: the readiness flag is false when the service is constructed by
`NewRunnerService`, becomes true when a `BuildCatalog` call completes
successfully, and no operation ever resets it; hence after a sequence
of operations containing a successful `BuildCatalog`, every later
`IsCatalogReady` call returns true, regardless of the operations (in
particular failing `BuildCatalog` calls) that follow. -/
theorem readiness_monotone (config : Config) (pre post : List Op) (env : BuildEnv)
    (cr : AnsibleRunner) (h : buildSucceeds config env = true) :
    IsCatalogReady (NewRunnerService config).1 = false ∧
    (∀ (op : Op) (t : RState × AnsibleRunner),
      IsCatalogReady t.1 = true → IsCatalogReady (applyOp op t).1 = true) ∧
    IsCatalogReady
      (runOps post (applyOp (Op.build env)
        (runOps pre ((NewRunnerService config).1, cr)))).1 = true := by
  refine ⟨rfl, fun op t ht => applyOp_ready_mono op t ht, ?_⟩
  show (runOps post _).1.ready = true
  apply runOps_ready_mono
  have hcfg : (runOps pre ((NewRunnerService config).1, cr)).1.config = config :=
    runOps_config_eq pre _
  show (BuildCatalog env (runOps pre ((NewRunnerService config).1, cr)).1).1.ready = true
  rw [BuildCatalog_ready_eq, hcfg, h, Bool.or_true]

theorem readiness_monotone_witness :
    IsCatalogReady (NewRunnerService sampleConfig).1 = false ∧
    (∀ (op : Op) (t : RState × AnsibleRunner),
      IsCatalogReady t.1 = true → IsCatalogReady (applyOp op t).1 = true) ∧
    IsCatalogReady
      (runOps [Op.build sampleBuildFail, Op.tickOp sampleTickOk]
        (applyOp (Op.build sampleBuildOk)
          (runOps [Op.tickOp sampleTickMetaFail]
            ((NewRunnerService sampleConfig).1, DefaultAnsibleRunner)))).1 = true :=
  readiness_monotone sampleConfig [Op.tickOp sampleTickMetaFail]
    [Op.build sampleBuildFail, Op.tickOp sampleTickOk] sampleBuildOk DefaultAnsibleRunner
    (by decide)

/-- C2: `BuildCatalog` attempts provisioning, meta-runner construction
and the meta playbook run in this order with short-circuiting (its
trace is a prefix of the three-step order); it returns nil exactly when
all three succeed; on each failure it returns the underlying error of
the failing step and leaves the readiness flag unchanged; on success it
sets the readiness flag and has run the playbook exactly once. -/
theorem buildCatalog_order_and_errors (env : BuildEnv) (s : RState) :
    ((BuildCatalog env s).2.2).isPrefixOf
      [Ev.createFiles, Ev.newMetaRunner, Ev.runMeta] = true ∧
    ((BuildCatalog env s).2.1 = none ↔ buildSucceeds s.config env = true) ∧
    (env.createOk = false →
      BuildCatalog env s = (s, some Err.provisionErr, [Ev.createFiles])) ∧
    (∀ e : Err, env.createOk = true →
      (NewAnsibleMetaRunner env.wsHas s.config).2 = some e →
      (BuildCatalog env s).2.1 = some e ∧ (BuildCatalog env s).1.ready = s.ready) ∧
    (env.createOk = true → (NewAnsibleMetaRunner env.wsHas s.config).2 = none →
      env.playbookOk = false →
      (BuildCatalog env s).2.1 = some Err.playbookRunErr ∧
      (BuildCatalog env s).1.ready = s.ready) ∧
    (buildSucceeds s.config env = true →
      (BuildCatalog env s).1.ready = true ∧ (BuildCatalog env s).2.1 = none ∧
      ((BuildCatalog env s).2.2).count Ev.runMeta = 1) := by
  refine ⟨?_, ?_, ?_, ?_, ?_, ?_⟩
  · cases hc : env.createOk
    · rw [BuildCatalog_createFail s hc]
      show ([Ev.createFiles] : List Ev).isPrefixOf _ = true
      decide
    · cases hm : (NewAnsibleMetaRunner env.wsHas s.config).2 with
      | some e =>
        rw [BuildCatalog_metaFail s hc hm]
        show ([Ev.createFiles, Ev.newMetaRunner] : List Ev).isPrefixOf _ = true
        decide
      | none =>
        cases hp : env.playbookOk
        · rw [BuildCatalog_runFail s hc hm hp]
          show ([Ev.createFiles, Ev.newMetaRunner, Ev.runMeta] : List Ev).isPrefixOf _ = true
          decide
        · rw [BuildCatalog_success s hc hm hp]
          show ([Ev.createFiles, Ev.newMetaRunner, Ev.runMeta] : List Ev).isPrefixOf _ = true
          decide
  · cases hc : env.createOk
    · rw [BuildCatalog_createFail s hc]
      simp [buildSucceeds_iff, hc]
    · cases hm : (NewAnsibleMetaRunner env.wsHas s.config).2 with
      | some e =>
        rw [BuildCatalog_metaFail s hc hm]
        simp [buildSucceeds_iff, hc, hm]
      | none =>
        cases hp : env.playbookOk
        · rw [BuildCatalog_runFail s hc hm hp]
          simp [buildSucceeds_iff, hc, hm, hp]
        · rw [BuildCatalog_success s hc hm hp]
          simp [buildSucceeds_iff, hc, hm, hp]
  · exact fun hc => BuildCatalog_createFail s hc
  · intro e hc hm
    rw [BuildCatalog_metaFail s hc hm]
    exact ⟨rfl, rfl⟩
  · intro hc hm hp
    rw [BuildCatalog_runFail s hc hm hp]
    exact ⟨rfl, rfl⟩
  · intro hb
    rcases buildSucceeds_iff.mp hb with ⟨hc, hm, hp⟩
    rw [BuildCatalog_success s hc hm hp]
    refine ⟨rfl, rfl, ?_⟩
    show ([Ev.createFiles, Ev.newMetaRunner, Ev.runMeta] : List Ev).count Ev.runMeta = 1
    decide

theorem buildCatalog_order_and_errors_witness :
    (BuildCatalog sampleBuildOk sampleState).2.1 = none ∧
    (BuildCatalog sampleBuildOk sampleState).1.ready = true ∧
    (BuildCatalog sampleBuildFail sampleState).2.1 = some Err.playbookRunErr ∧
    (BuildCatalog sampleBuildFail sampleState).1.ready = sampleState.ready := by
  have h1 := buildCatalog_order_and_errors sampleBuildOk sampleState
  have h2 := buildCatalog_order_and_errors sampleBuildFail sampleState
  have hs := h1.2.2.2.2.2 (by decide)
  have hf := h2.2.2.2.2.1 (by decide) (by decide) (by decide)
  exact ⟨hs.2.1, hs.1, hf.1, hf.2⟩

/-- C4: within one tick the five stages execute strictly in the
canonical order (the trace is a prefix of that order), and a tick whose
meta stage fails changes nothing: it writes no inventory, leaves the
check runner untouched, and neither the inventory-write stage nor the
check-run stage appears in its trace. -/
theorem tick_stage_order_meta_gate (env : TickEnv) (s : RState) (cr : AnsibleRunner) :
    ((tick env s cr).2.2).isPrefixOf stageOrder = true ∧
    (env.metaOk = false →
      tick env s cr = (s, cr, [Ev.runMeta]) ∧
      Ev.writeInv ∉ (tick env s cr).2.2 ∧ Ev.runCheck ∉ (tick env s cr).2.2) := by
  refine ⟨tick_trace_ordered env s cr, fun hm => ?_⟩
  rw [tick_metaFail s cr hm]
  refine ⟨rfl, ?_, ?_⟩
  · show Ev.writeInv ∉ ([Ev.runMeta] : List Ev)
    simp
  · show Ev.runCheck ∉ ([Ev.runMeta] : List Ev)
    simp

theorem tick_stage_order_meta_gate_witness :
    ((tick sampleTickOk sampleState DefaultAnsibleRunner).2.2).isPrefixOf stageOrder = true ∧
    tick sampleTickMetaFail sampleState DefaultAnsibleRunner =
      (sampleState, DefaultAnsibleRunner, [Ev.runMeta]) ∧
    Ev.runCheck ∉ (tick sampleTickMetaFail sampleState DefaultAnsibleRunner).2.2 := by
  have h1 := tick_stage_order_meta_gate sampleTickOk sampleState DefaultAnsibleRunner
  have h2 := tick_stage_order_meta_gate sampleTickMetaFail sampleState DefaultAnsibleRunner
  have hm := h2.2 (by decide)
  exact ⟨h1.1, hm.1, hm.2.2⟩

/-- C6: a failure of the final check-runner stage is only observed: a
tick whose first four stages succeed produces the full five-stage trace
whatever the check outcome is, the scheduled loop runs one tick per
scheduled interval regardless of any tick's outcome, and the loop never
changes the readiness flag. -/
theorem check_failure_only_observed (envs : List TickEnv) (env : TickEnv)
    (s : RState) (cr : AnsibleRunner) (h : tickReachesCheck env = true) :
    (tick env s cr).2.2 = stageOrder ∧
    (RepeatTicks envs s cr).2.2.length = envs.length ∧
    IsCatalogReady (RepeatTicks envs s cr).1 = IsCatalogReady s := by
  refine ⟨?_, RepeatTicks_length envs s cr, RepeatTicks_ready envs s cr⟩
  unfold tickReachesCheck at h
  simp only [Bool.and_eq_true] at h
  obtain ⟨⟨⟨hm, hs⟩, hw⟩, hb⟩ := h
  obtain ⟨c, hf⟩ := Option.isSome_iff_exists.mp hs
  rw [tick_full s cr hm hf hw hb]

theorem check_failure_only_observed_witness :
    (tick sampleTickCheckFail sampleState DefaultAnsibleRunner).2.2 = stageOrder ∧
    (RepeatTicks [sampleTickCheckFail] sampleState DefaultAnsibleRunner).2.2.length = 1 ∧
    IsCatalogReady (RepeatTicks [sampleTickCheckFail] sampleState DefaultAnsibleRunner).1 =
      IsCatalogReady sampleState := by
  have h := check_failure_only_observed [sampleTickCheckFail] sampleTickCheckFail
    sampleState DefaultAnsibleRunner (by decide)
  exact ⟨h.1, h.2.1, h.2.2⟩

/-- C8: the meta-runner factory binds the meta playbook path, the
standard config file and the catalog destination and no inventory; the
check-runner factory binds the main playbook path, the standard config
file, check mode, and the API host/port, with no inventory; each
factory returns a MissingArtifact error when its playbook path cannot
be validated against the provisioned workspace. -/
theorem runner_factory_bindings (wsHas : String → Bool) (config : Config) :
    (wsHas (pathJoin config.ansibleFolder AnsibleMeta) = true →
      NewAnsibleMetaRunner wsHas config =
        ({ playbook := some (pathJoin config.ansibleFolder AnsibleMeta),
           configFile := some (pathJoin config.ansibleFolder AnsibleConfigFile),
           catalogDestination := some (pathJoin config.ansibleFolder CatalogDestinationFile),
           inventory := none, checkMode := false,
           trentoApiHost := none, trentoApiPort := none }, none)) ∧
    (wsHas (pathJoin config.ansibleFolder AnsibleMeta) = false →
      (NewAnsibleMetaRunner wsHas config).2 = some Err.missingArtifact) ∧
    (wsHas (pathJoin config.ansibleFolder AnsibleMain) = true →
      NewAnsibleCheckRunner wsHas config =
        ({ playbook := some (pathJoin config.ansibleFolder AnsibleMain),
           configFile := some (pathJoin config.ansibleFolder AnsibleConfigFile),
           catalogDestination := none, inventory := none, checkMode := true,
           trentoApiHost := some config.apiHost,
           trentoApiPort := some config.apiPort }, none)) ∧
    (wsHas (pathJoin config.ansibleFolder AnsibleMain) = false →
      (NewAnsibleCheckRunner wsHas config).2 = some Err.missingArtifact) := by
  refine ⟨fun h => ?_, fun h => ?_, fun h => ?_, fun h => ?_⟩ <;>
    simp [NewAnsibleMetaRunner, NewAnsibleCheckRunner, SetPlaybook, SetConfigFile,
      SetCatalogDestination, SetTrentoApiData, DefaultAnsibleRunner, h]

theorem runner_factory_bindings_witness :
    NewAnsibleMetaRunner (fun _ => true) sampleConfig =
      ({ playbook := some (pathJoin sampleConfig.ansibleFolder AnsibleMeta),
         configFile := some (pathJoin sampleConfig.ansibleFolder AnsibleConfigFile),
         catalogDestination := some (pathJoin sampleConfig.ansibleFolder CatalogDestinationFile),
         inventory := none, checkMode := false,
         trentoApiHost := none, trentoApiPort := none }, none) ∧
    (NewAnsibleCheckRunner (fun _ => false) sampleConfig).2 = some Err.missingArtifact := by
  have h1 := runner_factory_bindings (fun _ => true) sampleConfig
  have h2 := runner_factory_bindings (fun _ => false) sampleConfig
  exact ⟨h1.1 rfl, h2.2.2.2 rfl⟩

/-- C9: no scheduled tick and no readiness query ever changes the value
of `IsCatalogReady`; the only operation that writes the readiness flag
is `BuildCatalog`, which ors it with the success of the build. -/
theorem readiness_frame (benv : BuildEnv) (tenv : TickEnv)
    (t : RState × AnsibleRunner) :
    IsCatalogReady (applyOp (Op.tickOp tenv) t).1 = IsCatalogReady t.1 ∧
    IsCatalogReady (applyOp Op.queryReady t).1 = IsCatalogReady t.1 ∧
    IsCatalogReady (applyOp (Op.build benv) t).1 =
      (IsCatalogReady t.1 || buildSucceeds t.1.config benv) :=
  ⟨tick_ready_eq tenv t.1 t.2, rfl, BuildCatalog_ready_eq benv t.1⟩

theorem readiness_frame_witness :
    IsCatalogReady
      (applyOp (Op.tickOp sampleTickOk) (sampleState, DefaultAnsibleRunner)).1 =
      IsCatalogReady sampleState ∧
    IsCatalogReady
      (applyOp (Op.build sampleBuildFail) (sampleState, DefaultAnsibleRunner)).1 =
      (IsCatalogReady sampleState || buildSucceeds sampleConfig sampleBuildFail) := by
  have h := readiness_frame sampleBuildFail sampleTickOk (sampleState, DefaultAnsibleRunner)
  exact ⟨h.1, h.2.2⟩

/-- C10: `NewRunnerService` returns a nil error for every configuration,
and the returned service reports `IsCatalogReady` false, both initially
and after any sequence of operations containing no successful
`BuildCatalog` call. -/
theorem newRunnerService_succeeds_not_ready (config : Config) (ops : List Op)
    (cr : AnsibleRunner) (h : noSuccessfulBuild config ops = true) :
    (NewRunnerService config).2 = none ∧
    IsCatalogReady (NewRunnerService config).1 = false ∧
    IsCatalogReady (runOps ops ((NewRunnerService config).1, cr)).1 = false :=
  ⟨rfl, rfl, runOps_ready_false config ops _ rfl rfl h⟩

theorem newRunnerService_succeeds_not_ready_witness :
    (NewRunnerService sampleConfig).2 = none ∧
    IsCatalogReady (NewRunnerService sampleConfig).1 = false ∧
    IsCatalogReady
      (runOps [Op.build sampleBuildFail, Op.tickOp sampleTickOk, Op.queryReady]
        ((NewRunnerService sampleConfig).1, DefaultAnsibleRunner)).1 = false :=
  newRunnerService_succeeds_not_ready sampleConfig
    [Op.build sampleBuildFail, Op.tickOp sampleTickOk, Op.queryReady]
    DefaultAnsibleRunner (by decide)

/-! ## Lemmas about the liveness-probe retry and Start -/

theorem retryProbe_allFail (probe : Nat → Bool) (jitter : Nat → Nat) :
    ∀ (remaining n : Nat), (∀ i, i < remaining → probe (n + i) = false) →
      (retryProbe probe jitter n remaining).1 = some Err.apiNotAvailable := by
  intro remaining
  induction remaining with
  | zero => intro n _; rfl
  | succ k ih =>
    intro n h
    have h0 : probe n = false := by simpa using h 0 (Nat.succ_pos k)
    cases k with
    | zero =>
      unfold retryProbe
      simp [h0]
    | succ m =>
      have hrec := ih (n + 1) (fun i hi => by
        have hx := h (i + 1) (Nat.succ_lt_succ hi)
        rwa [show n + (i + 1) = n + 1 + i by omega] at hx)
      unfold retryProbe
      simp [h0, hrec]

theorem retryProbe_success (probe : Nat → Bool) (jitter : Nat → Nat) :
    ∀ (remaining n : Nat), (∃ i, i < remaining ∧ probe (n + i) = true) →
      (retryProbe probe jitter n remaining).1 = none := by
  intro remaining
  induction remaining with
  | zero =>
    rintro n ⟨i, hi, _⟩
    exact absurd hi (Nat.not_lt_zero i)
  | succ k ih =>
    rintro n ⟨i, hi, hp⟩
    cases hp0 : probe n with
    | true =>
      unfold retryProbe
      simp [hp0]
    | false =>
      cases i with
      | zero =>
        rw [Nat.add_zero, hp0] at hp
        exact absurd hp (by simp)
      | succ j =>
        have hj : j < k := Nat.lt_of_succ_lt_succ hi
        have hk : k ≠ 0 := by omega
        have hrec := ih (n + 1)
          ⟨j, hj, by rwa [show n + 1 + j = n + (j + 1) by omega]⟩
        unfold retryProbe
        simp [hp0, hrec, hk]

theorem retryProbe_err_cases (probe : Nat → Bool) (jitter : Nat → Nat) :
    ∀ (remaining n : Nat),
      (retryProbe probe jitter n remaining).1 = none ∨
      (retryProbe probe jitter n remaining).1 = some Err.apiNotAvailable := by
  intro remaining
  induction remaining with
  | zero => intro n; exact Or.inr rfl
  | succ k ih =>
    intro n
    cases hp0 : probe n with
    | true =>
      unfold retryProbe
      simp [hp0]
    | false =>
      cases hk : k == 0
      · have := ih (n + 1)
        unfold retryProbe
        simpa [hp0, hk] using this
      · unfold retryProbe
        simp [hp0, hk]

theorem retryProbe_waits_le (probe : Nat → Bool) (jitter : Nat → Nat) :
    ∀ (remaining n : Nat),
      (retryProbe probe jitter n remaining).2.length ≤ remaining - 1 := by
  intro remaining
  induction remaining with
  | zero => intro n; simp [retryProbe]
  | succ k ih =>
    intro n
    cases hp0 : probe n with
    | true =>
      unfold retryProbe
      simp [hp0]
    | false =>
      cases hk : k == 0
      · have hk0 : k ≠ 0 := by simpa using hk
        have := ih (n + 1)
        unfold retryProbe
        simp only [hp0, Bool.false_eq_true, if_false, hk]
        simp only [List.length_cons]
        omega
      · unfold retryProbe
        simp [hp0, hk]

theorem retryProbe_waits_bounds (probe : Nat → Bool) (jitter : Nat → Nat) :
    ∀ (remaining n : Nat), ∀ d ∈ (retryProbe probe jitter n remaining).2,
      retryDelayMs ≤ d ∧ d < retryDelayMs + retryMaxJitterMs := by
  intro remaining
  induction remaining with
  | zero => intro n d hd; simp [retryProbe] at hd
  | succ k ih =>
    intro n d hd
    unfold retryProbe at hd
    cases hp0 : probe n <;> rw [hp0] at hd
    · cases hk : k == 0 <;> rw [hk] at hd
      · simp only [Bool.false_eq_true, if_false, List.mem_cons] at hd
        rcases hd with rfl | hd
        · refine ⟨Nat.le_add_right _ _, ?_⟩
          have : jitter n % retryMaxJitterMs < retryMaxJitterMs :=
            Nat.mod_lt _ (by decide)
          omega
        · exact ih (n + 1) d hd
      · simp at hd
    · simp at hd

theorem Start_createFail {env : StartEnv} (s : RState)
    (hc : env.createOk = false) :
    Start env s =
      { state := s, err := some Err.provisionErr, tickTraces := [], waits := [] } := by
  simp [Start, hc]

theorem Start_probeFail {env : StartEnv} (s : RState) {e : Err}
    (hc : env.createOk = true)
    (hr : (retryProbe env.probe env.jitter 0 retryAttempts).1 = some e) :
    Start env s =
      { state := { s with inventory := none }, err := some e, tickTraces := [],
        waits := (retryProbe env.probe env.jitter 0 retryAttempts).2 } := by
  simp [Start, hc, hr]

theorem Start_probeOk {env : StartEnv} (s : RState)
    (hc : env.createOk = true)
    (hr : (retryProbe env.probe env.jitter 0 retryAttempts).1 = none) :
    Start env s =
      { state := (startCheckRunnerTicker env.loopEnv { s with inventory := none }).1,
        err := none,
        tickTraces := (startCheckRunnerTicker env.loopEnv { s with inventory := none }).2,
        waits := (retryProbe env.probe env.jitter 0 retryAttempts).2 } := by
  simp [Start, hc, hr]

theorem startCheckRunnerTicker_length {lenv : LoopEnv} (s : RState)
    (hcr : (NewAnsibleCheckRunner lenv.wsHas s.config).2 = none)
    (hmr : (NewAnsibleMetaRunner lenv.wsHas s.config).2 = none) :
    (startCheckRunnerTicker lenv s).2.length = lenv.ticks.length := by
  unfold startCheckRunnerTicker
  rw [hcr, hmr]
  simp [RepeatTicks_length]

/-- C5: the startup liveness probe is retried with a fixed base delay
plus bounded random jitter (every wait lies in
`[retryDelayMs, retryDelayMs + retryMaxJitterMs)`) for at most
`retryAttempts` attempts (at most `retryAttempts - 1` waits); if every
attempt fails, `Start` returns only the most recent error and never
spawns the pipeline loop; if some attempt `k < retryAttempts` succeeds,
`Start` proceeds and surfaces none of the earlier failures. -/
theorem start_retry_policy (env : StartEnv) (s : RState)
    (hc : env.createOk = true) :
    ((∀ n, n < retryAttempts → env.probe n = false) →
      (Start env s).err = some Err.apiNotAvailable ∧ (Start env s).tickTraces = []) ∧
    ((∃ k, k < retryAttempts ∧ env.probe k = true) → (Start env s).err = none) ∧
    (Start env s).waits.length ≤ retryAttempts - 1 ∧
    (∀ d ∈ (Start env s).waits,
      retryDelayMs ≤ d ∧ d < retryDelayMs + retryMaxJitterMs) := by
  have hwaits : (Start env s).waits = (retryProbe env.probe env.jitter 0 retryAttempts).2 := by
    rcases retryProbe_err_cases env.probe env.jitter retryAttempts 0 with hr | hr
    · rw [Start_probeOk s hc hr]
    · rw [Start_probeFail s hc hr]
  refine ⟨?_, ?_, ?_, ?_⟩
  · intro hall
    have hr : (retryProbe env.probe env.jitter 0 retryAttempts).1 = some Err.apiNotAvailable :=
      retryProbe_allFail env.probe env.jitter retryAttempts 0
        (fun i hi => by simpa using hall i hi)
    rw [Start_probeFail s hc hr]
    exact ⟨rfl, rfl⟩
  · rintro ⟨k, hk, hp⟩
    have hr : (retryProbe env.probe env.jitter 0 retryAttempts).1 = none :=
      retryProbe_success env.probe env.jitter retryAttempts 0
        ⟨k, hk, by simpa using hp⟩
    rw [Start_probeOk s hc hr]
  · rw [hwaits]
    exact retryProbe_waits_le env.probe env.jitter retryAttempts 0
  · rw [hwaits]
    exact retryProbe_waits_bounds env.probe env.jitter retryAttempts 0

theorem start_retry_policy_witness :
    (Start sampleStartFail sampleState).err = some Err.apiNotAvailable ∧
    (Start sampleStartFail sampleState).tickTraces = [] ∧
    (Start sampleStartOk sampleState).err = none ∧
    (Start sampleStartFail sampleState).waits.length ≤ retryAttempts - 1 := by
  have h1 := start_retry_policy sampleStartFail sampleState rfl
  have h2 := start_retry_policy sampleStartOk sampleState rfl
  have ha := h1.1 (fun n _ => rfl)
  exact ⟨ha.1, ha.2, h2.2.1 ⟨2, by decide, by decide⟩, h1.2.2.1⟩

/-- C7: `Start` returns an error only for the two fatal startup causes;
a provisioning failure makes it return `provisionErr` at once, with no
pipeline tick ever run; a `provisionErr` return always comes with an
empty pipeline trace; and when provisioning and some probe attempt
succeed, `Start` surfaces no error and (when the loop's runner
constructions succeed) runs one tick per scheduled interval until
cancellation. -/
theorem start_fatal_causes (env : StartEnv) (s : RState) :
    (env.createOk = false →
      Start env s =
        { state := s, err := some Err.provisionErr, tickTraces := [], waits := [] }) ∧
    (∀ e, (Start env s).err = some e →
      e = Err.provisionErr ∨ e = Err.apiNotAvailable) ∧
    ((Start env s).err = some Err.provisionErr → (Start env s).tickTraces = []) ∧
    (env.createOk = true → (∃ k, k < retryAttempts ∧ env.probe k = true) →
      (Start env s).err = none ∧
      ((NewAnsibleCheckRunner env.loopEnv.wsHas s.config).2 = none →
        (NewAnsibleMetaRunner env.loopEnv.wsHas s.config).2 = none →
        (Start env s).tickTraces.length = env.loopEnv.ticks.length)) := by
  refine ⟨fun hc => Start_createFail s hc, ?_, ?_, ?_⟩
  · intro e he
    cases hc : env.createOk
    · rw [Start_createFail s hc] at he
      exact Or.inl (Option.some_injective _ he).symm
    · rcases retryProbe_err_cases env.probe env.jitter retryAttempts 0 with hr | hr
      · rw [Start_probeOk s hc hr] at he
        exact absurd he (by simp)
      · rw [Start_probeFail s hc hr] at he
        simp only at he
        exact Or.inr (Option.some_injective _ he.symm)
  · intro he
    cases hc : env.createOk
    · rw [Start_createFail s hc]
    · rcases retryProbe_err_cases env.probe env.jitter retryAttempts 0 with hr | hr
      · rw [Start_probeOk s hc hr] at he
        exact absurd he (by simp)
      · rw [Start_probeFail s hc hr]
  · rintro hc ⟨k, hk, hp⟩
    have hr : (retryProbe env.probe env.jitter 0 retryAttempts).1 = none :=
      retryProbe_success env.probe env.jitter retryAttempts 0
        ⟨k, hk, by simpa using hp⟩
    rw [Start_probeOk s hc hr]
    refine ⟨rfl, fun hcr hmr => ?_⟩
    exact startCheckRunnerTicker_length { s with inventory := none } hcr hmr

theorem start_fatal_causes_witness :
    Start sampleStartCreateFail sampleState =
      { state := sampleState, err := some Err.provisionErr,
        tickTraces := [], waits := [] } ∧
    (Start sampleStartOk sampleState).err = none ∧
    (Start sampleStartOk sampleState).tickTraces.length =
      sampleStartOk.loopEnv.ticks.length := by
  have h1 := start_fatal_causes sampleStartCreateFail sampleState
  have h2 := start_fatal_causes sampleStartOk sampleState
  have h4 := h2.2.2.2 rfl ⟨2, by decide, by decide⟩
  exact ⟨h1.1 rfl, h4.1, h4.2 (by decide) (by decide)⟩

/-! ## Lemmas about the workspace provisioner -/

theorem isUnder_refl (l : List String) : isUnder l l = true := by
  induction l with
  | nil => rfl
  | cons a rest ih => simp [isUnder, ih]

theorem isUnder_append (folder : List String) {p q : List String}
    (h : isUnder p q = true) : isUnder (folder ++ p) (folder ++ q) = true := by
  induction folder with
  | nil => exact h
  | cons a rest ih => simpa [isUnder] using ih

theorem append_ne_of_ne (folder : List String) {p q : List String}
    (h : p ≠ q) : folder ++ p ≠ folder ++ q :=
  fun hh => h (List.append_cancel_left hh)

theorem lookupFS_not_mem {l : FSys} {k : List String}
    (h : k ∉ l.map (fun e => e.1)) : lookupFS l k = none := by
  induction l with
  | nil => rfl
  | cons e rest ih =>
    obtain ⟨k1, v⟩ := e
    simp only [List.map_cons, List.mem_cons, not_or] at h
    rw [lookupFS, if_neg h.1]
    exact ih h.2

theorem lookupFS_removeAll {root p : List String} (h : isUnder root p = true)
    (fs : FSys) : lookupFS (removeAllFS root fs) p = none := by
  induction fs with
  | nil => rfl
  | cons e rest ih =>
    obtain ⟨k, v⟩ := e
    show lookupFS (List.filter _ ((k, v) :: rest)) p = none
    rw [List.filter_cons]
    cases hu : isUnder root k
    · have hpk : ¬(p = k) := by
        intro hh
        rw [hh, hu] at h
        exact Bool.false_ne_true h
      simp only [hu, Bool.not_false, if_true]
      rw [lookupFS, if_neg hpk]
      exact ih
    · simp only [hu, Bool.not_true, Bool.false_eq_true, if_false]
      exact ih

theorem copyEntry_allOk (folder q : List String) (nd : Node) (fs : FSys)
    (hdir : nd = Node.dir →
      lookupFS fs (folder ++ q) = none ∨ lookupFS fs (folder ++ q) = some Node.dir) :
    ∃ fsStep, copyEntry allOk folder (q, nd) fs = .ok fsStep ∧
      lookupFS fsStep (folder ++ q) = some nd ∧
      ∀ p, p ≠ q → lookupFS fsStep (folder ++ p) = lookupFS fs (folder ++ p) := by
  cases nd with
  | dir =>
    rcases hdir rfl with hl | hl
    · refine ⟨(folder ++ q, Node.dir) :: fs, ?_, ?_, ?_⟩
      · simp [copyEntry, allOk, mkdirFS, hl]
      · simp [lookupFS]
      · intro p hp
        rw [lookupFS, if_neg (append_ne_of_ne folder hp)]
    · refine ⟨fs, ?_, hl, fun p hp => rfl⟩
      simp [copyEntry, allOk, mkdirFS, hl]
  | file c =>
    refine ⟨(folder ++ q, Node.file c) :: fs, ?_, ?_, ?_⟩
    · simp [copyEntry, allOk]
    · simp [lookupFS]
    · intro p hp
      rw [lookupFS, if_neg (append_ne_of_ne folder hp)]

theorem walkCopy_allOk (folder : List String) :
    ∀ (rest : List (List String × Node)) (fs : FSys),
      (List.map (fun e => e.1) rest).Nodup →
      (∀ p n, (p, n) ∈ rest → n = Node.dir →
        lookupFS fs (folder ++ p) = none ∨ lookupFS fs (folder ++ p) = some Node.dir) →
      ∃ fs1, walkCopy allOk folder rest fs = .ok fs1 ∧
        (∀ p n, lookupFS rest p = some n → lookupFS fs1 (folder ++ p) = some n) ∧
        (∀ p, lookupFS rest p = none →
          lookupFS fs1 (folder ++ p) = lookupFS fs (folder ++ p)) := by
  intro rest
  induction rest with
  | nil =>
    intro fs _ _
    exact ⟨fs, rfl, fun p n h => absurd h (by simp [lookupFS]), fun p _ => rfl⟩
  | cons e rest ih =>
    intro fs hnd hdir
    obtain ⟨q, nd⟩ := e
    simp only [List.map_cons, List.nodup_cons] at hnd
    obtain ⟨hq, hnd'⟩ := hnd
    obtain ⟨fsStep, hstep, hstepq, hstepo⟩ :=
      copyEntry_allOk folder q nd fs (fun hd => hdir q nd (List.mem_cons_self _ _) hd)
    have hdir' : ∀ p n, (p, n) ∈ rest → n = Node.dir →
        lookupFS fsStep (folder ++ p) = none ∨
        lookupFS fsStep (folder ++ p) = some Node.dir := by
      intro p n hm hd
      have hpq : p ≠ q := by
        intro hh
        exact hq (hh ▸ List.mem_map_of_mem (fun e => e.1) hm)
      rw [hstepo p hpq]
      exact hdir p n (List.mem_cons_of_mem _ hm) hd
    obtain ⟨fs1, hwalk, h1, h2⟩ := ih fsStep hnd' hdir'
    refine ⟨fs1, ?_, ?_, ?_⟩
    · rw [walkCopy, hstep]
      exact hwalk
    · intro p n hl
      rw [lookupFS] at hl
      by_cases hpq : p = q
      · rw [if_pos hpq] at hl
        subst hpq
        have hrest : lookupFS rest p = none := lookupFS_not_mem hq
        rw [h2 p hrest, hstepq]
        exact hl
      · rw [if_neg hpq] at hl
        exact h1 p n hl
    · intro p hl
      rw [lookupFS] at hl
      by_cases hpq : p = q
      · rw [if_pos hpq] at hl
        exact absurd hl (by simp)
      · rw [if_neg hpq] at hl
        rw [h2 p hl, hstepo p hpq]

/-- Under an oracle where every individual filesystem operation
succeeds, a `createAnsibleFiles` call leaves the destination subtree an
exact mirror of the template, whatever was there before. -/
theorem createAnsibleFiles_allOk_mirrors (tmpl : List (List String × Node))
    (folder : List String) (fs : FSys) (hwf : templateWF tmpl = true) :
    ∃ fs1, createAnsibleFiles allOk tmpl folder fs = .ok fs1 ∧
      mirrorsTemplate fs1 folder tmpl := by
  unfold templateWF at hwf
  simp only [Bool.and_eq_true] at hwf
  obtain ⟨⟨hroot, hall⟩, hnd⟩ := hwf
  have hnd' : (List.map (fun e => e.1) tmpl).Nodup := of_decide_eq_true hnd
  cases tmpl with
  | nil => simp at hroot
  | cons e rest =>
    obtain ⟨q, nd⟩ := e
    cases nd with
    | file c => simp at hroot
    | dir =>
      have hq : q = ["ansible"] := by simpa using hroot
      subst hq
      have hrm : lookupFS (removeAllFS (folder ++ ["ansible"]) fs)
          (folder ++ ["ansible"]) = none :=
        lookupFS_removeAll (isUnder_refl _) fs
      have hfs2 : createAnsibleFiles allOk ((["ansible"], Node.dir) :: rest) folder fs =
          walkCopy allOk folder ((["ansible"], Node.dir) :: rest)
            ((folder ++ ["ansible"], Node.dir) :: removeAllFS (folder ++ ["ansible"]) fs) := by
        simp [createAnsibleFiles, allOk, hrm]
      have hdir : ∀ p n, (p, n) ∈ (["ansible"], Node.dir) :: rest → n = Node.dir →
          lookupFS ((folder ++ ["ansible"], Node.dir) :: removeAllFS (folder ++ ["ansible"]) fs)
            (folder ++ p) = none ∨
          lookupFS ((folder ++ ["ansible"], Node.dir) :: removeAllFS (folder ++ ["ansible"]) fs)
            (folder ++ p) = some Node.dir := by
        intro p n hm _
        by_cases hp : p = ["ansible"]
        · subst hp
          right
          simp [lookupFS]
        · left
          rw [lookupFS, if_neg (append_ne_of_ne folder hp)]
          have hup : isUnder ["ansible"] p = true := by
            have := List.all_eq_true.mp hall (p, n) hm
            simpa using this
          exact lookupFS_removeAll (isUnder_append folder hup) fs
      obtain ⟨fs1, hwalk, h1, h2⟩ :=
        walkCopy_allOk folder ((["ansible"], Node.dir) :: rest)
          ((folder ++ ["ansible"], Node.dir) :: removeAllFS (folder ++ ["ansible"]) fs)
          hnd' hdir
      refine ⟨fs1, by rw [hfs2, hwalk], ?_⟩
      intro p hup
      cases hl : lookupFS ((["ansible"], Node.dir) :: rest) p with
      | some n => exact h1 p n hl
      | none =>
        have hp : p ≠ ["ansible"] := by
          intro hh
          subst hh
          rw [lookupFS, if_pos rfl] at hl
          exact absurd hl (by simp)
        rw [h2 p hl, lookupFS, if_neg (append_ne_of_ne folder hp)]
        exact lookupFS_removeAll (isUnder_append folder hup) fs

/-- C3 (refuting evaluation): starting from an empty prior state, with
every filesystem operation succeeding except the data write of
`check.yml` — whose error `createAnsibleFiles` discards (source line
154) — the call returns success, yet the destination holds an empty
`check.yml` where the template holds its real content, so the
destination is not byte-identical to the template. -/
theorem createAnsibleFiles_ok_without_mirror :
    createAnsibleFiles writeFailOracle sampleTemplate ["srv"] [] =
      .ok writeFailResult ∧
    lookupFS writeFailResult ["srv", "ansible", "check.yml"] = some (Node.file "") ∧
    lookupFS sampleTemplate ["ansible", "check.yml"] =
      some (Node.file "- hosts: all\n") ∧
    templateWF sampleTemplate = true :=
  ⟨by rfl, by rfl, by rfl, by decide⟩

end TrentoRunner
